import Mathlib

/-!
Shallow embedding of the HealthRevo clinical decision-support core.

Numeric vital values are modelled as rationals (the Python code computes
with exact small decimals; `round(x, n)` is modelled as round-half-to-even,
matching Python's semantics on exact values).  Optional numeric fields are
`Option ℚ`; Python truthiness of such a field (`if vital.systolic:`) is
`pyTruthy`: the field is non-`None` and non-zero.
-/

namespace HealthRevo

/-- Python truthiness of an optional numeric value: `None` and `0` are falsy. -/
def pyTruthy : Option ℚ → Bool
  | none => false
  | some v => v ≠ 0

/-- Arithmetic mean of a list of rationals (`statistics.mean`). -/
def listMean (l : List ℚ) : ℚ := l.sum / l.length

/-- Python `round` to an integer: round half to even. -/
def roundHalfEven (q : ℚ) : ℤ :=
  let f := ⌊q⌋
  let frac := q - f
  if frac < 1/2 then f
  else if frac > 1/2 then f + 1
  else if f % 2 = 0 then f else f + 1

/-- Python `round(q, n)`: round to `n` decimal places, half to even. -/
def roundTo (n : ℕ) (q : ℚ) : ℚ := (roundHalfEven (q * 10 ^ n) : ℚ) / 10 ^ n

/-- The `AlertSeverity` enum from `app/models/alert.py`. -/
inductive AlertSeverity where
  | MILD | SERIOUS | URGENT | CRITICAL
deriving DecidableEq, Repr

/-- The `AlertType` enum from `app/models/alert.py`. -/
inductive AlertType where
  | ANOMALY | DRUG_INTERACTION | RISK_THRESHOLD | VITAL_EMERGENCY | MEDICATION_ADHERENCE
deriving DecidableEq, Repr

/-- A vitals reading (`app/models/vitals.py`): all vital-sign fields nullable. -/
structure Vitals where
  systolic : Option ℚ := none
  diastolic : Option ℚ := none
  heart_rate : Option ℚ := none
  temperature : Option ℚ := none
  blood_glucose : Option ℚ := none
  oxygen_saturation : Option ℚ := none
  weight : Option ℚ := none
deriving DecidableEq, Repr

/-- The six vital fields inspected by the statistical anomaly pass
    (`vital_checks` in `alert_service.py`). -/
inductive VitalField where
  | systolic | diastolic | heart_rate | temperature | blood_glucose | oxygen_saturation
deriving DecidableEq, Repr

/-- Accessor `getattr(v, vital_attr)` for the six checked fields. -/
def fieldGet (v : Vitals) : VitalField → Option ℚ
  | .systolic => v.systolic
  | .diastolic => v.diastolic
  | .heart_rate => v.heart_rate
  | .temperature => v.temperature
  | .blood_glucose => v.blood_glucose
  | .oxygen_saturation => v.oxygen_saturation

/-- The attribute-name string used as `vital_type` metadata in the statistical pass. -/
def fieldName : VitalField → String
  | .systolic => "systolic"
  | .diastolic => "diastolic"
  | .heart_rate => "heart_rate"
  | .temperature => "temperature"
  | .blood_glucose => "blood_glucose"
  | .oxygen_saturation => "oxygen_saturation"

/-- Display name of a field in the statistical pass. -/
def displayName : VitalField → String
  | .systolic => "Systolic Blood Pressure"
  | .diastolic => "Diastolic Blood Pressure"
  | .heart_rate => "Heart Rate"
  | .temperature => "Temperature"
  | .blood_glucose => "Blood Glucose"
  | .oxygen_saturation => "Oxygen Saturation"

/-- A candidate finding produced by `AnomalyDetector` (dict in Python).
    The f-string `message` is not modelled; the `alert_metadata` keys are:
    `vital_type` and the raw/current value always, and for statistical
    findings also the rounded historical mean and deviation percentage. -/
structure VFinding where
  severity : AlertSeverity
  atype : AlertType
  title : String
  recommendation : String
  vital_type : String
  value : ℚ
  historical_mean : Option ℚ := none
  deviation_percentage : Option ℚ := none
deriving DecidableEq, Repr

/-- Emergency rule for systolic blood pressure
    (`if vital.systolic and vital.systolic > 180`). -/
def systolicEmergency (vital : Vitals) : List VFinding :=
  if pyTruthy vital.systolic ∧ vital.systolic.getD 0 > 180 then
    [{ severity := .URGENT, atype := .VITAL_EMERGENCY, title := "Hypertensive Crisis",
       recommendation := "Seek immediate medical attention",
       vital_type := "systolic_bp", value := vital.systolic.getD 0 }] else []

/-- Emergency rule for diastolic blood pressure
    (`if vital.diastolic and vital.diastolic > 120`). -/
def diastolicEmergency (vital : Vitals) : List VFinding :=
  if pyTruthy vital.diastolic ∧ vital.diastolic.getD 0 > 120 then
    [{ severity := .URGENT, atype := .VITAL_EMERGENCY, title := "Diastolic Hypertensive Crisis",
       recommendation := "Seek immediate medical attention",
       vital_type := "diastolic_bp", value := vital.diastolic.getD 0 }] else []

/-- Emergency rules for heart rate (`if vital.heart_rate:` then the
    tachycardia / bradycardia `if`/`elif`). -/
def heartRateEmergency (vital : Vitals) : List VFinding :=
  if pyTruthy vital.heart_rate then
    (if vital.heart_rate.getD 0 > 120 then
      [{ severity := .SERIOUS, atype := .VITAL_EMERGENCY, title := "Tachycardia Detected",
         recommendation := "Monitor closely and consult healthcare provider",
         vital_type := "heart_rate", value := vital.heart_rate.getD 0 }]
     else if vital.heart_rate.getD 0 < 50 then
      [{ severity := .SERIOUS, atype := .VITAL_EMERGENCY, title := "Bradycardia Detected",
         recommendation := "Monitor closely and consult healthcare provider",
         vital_type := "heart_rate", value := vital.heart_rate.getD 0 }]
     else []) else []

/-- Emergency rules for oxygen saturation (`< 90` urgent, `elif < 95` serious). -/
def oxygenEmergency (vital : Vitals) : List VFinding :=
  if pyTruthy vital.oxygen_saturation then
    (if vital.oxygen_saturation.getD 0 < 90 then
      [{ severity := .URGENT, atype := .VITAL_EMERGENCY, title := "Low Oxygen Saturation",
         recommendation := "Seek immediate medical attention",
         vital_type := "oxygen_saturation", value := vital.oxygen_saturation.getD 0 }]
     else if vital.oxygen_saturation.getD 0 < 95 then
      [{ severity := .SERIOUS, atype := .VITAL_EMERGENCY, title := "Reduced Oxygen Saturation",
         recommendation := "Monitor closely and consider medical consultation",
         vital_type := "oxygen_saturation", value := vital.oxygen_saturation.getD 0 }]
     else []) else []

/-- Emergency rules for blood glucose (`> 300` urgent, `elif < 70` urgent). -/
def glucoseEmergency (vital : Vitals) : List VFinding :=
  if pyTruthy vital.blood_glucose then
    (if vital.blood_glucose.getD 0 > 300 then
      [{ severity := .URGENT, atype := .VITAL_EMERGENCY, title := "Severe Hyperglycemia",
         recommendation := "Seek immediate medical attention",
         vital_type := "blood_glucose", value := vital.blood_glucose.getD 0 }]
     else if vital.blood_glucose.getD 0 < 70 then
      [{ severity := .URGENT, atype := .VITAL_EMERGENCY, title := "Hypoglycemia",
         recommendation := "Consume fast-acting carbohydrates and monitor",
         vital_type := "blood_glucose", value := vital.blood_glucose.getD 0 }]
     else []) else []

/-- Emergency rules for temperature (`> 39.0` serious, `elif < 35.0` serious). -/
def temperatureEmergency (vital : Vitals) : List VFinding :=
  if pyTruthy vital.temperature then
    (if vital.temperature.getD 0 > 39 then
      [{ severity := .SERIOUS, atype := .VITAL_EMERGENCY, title := "High Fever",
         recommendation := "Monitor temperature and consider medical consultation",
         vital_type := "temperature", value := vital.temperature.getD 0 }]
     else if vital.temperature.getD 0 < 35 then
      [{ severity := .SERIOUS, atype := .VITAL_EMERGENCY, title := "Hypothermia Risk",
         recommendation := "Seek warming measures and medical attention",
         vital_type := "temperature", value := vital.temperature.getD 0 }]
     else []) else []

/-- Translation of `AnomalyDetector._check_emergency_thresholds`: immediate single-reading
    threshold rules, one block per vital field, results appended in source order. -/
def check_emergency_thresholds (vital : Vitals) : List VFinding :=
  systolicEmergency vital ++ diastolicEmergency vital ++ heartRateEmergency vital
  ++ oxygenEmergency vital ++ glucoseEmergency vital ++ temperatureEmergency vital

/-- Translation of `AnomalyDetector._check_statistical_anomalies`, one field of the loop body.
    `threshold_pct` is `settings.anomaly_threshold_percentage` (default 20),
    passed explicitly. -/
def check_statistical_field (threshold_pct : ℚ) (new_vital : Vitals)
    (historical_vitals : List Vitals) (f : VitalField) : List VFinding :=
  match fieldGet new_vital f with
  | none => []
  | some current =>
    let historical_values := (historical_vitals.map (fun v => fieldGet v f)).reduceOption
    if historical_values.length < 3 then []
    else
      let mean_value := listMean historical_values
      if mean_value > 0 then
        let deviation := |current - mean_value| / mean_value
        if deviation > threshold_pct / 100 then
          [{ severity := .MILD, atype := .ANOMALY, title := displayName f ++ " Anomaly",
             recommendation := "Monitor trend and consult healthcare provider if pattern continues",
             vital_type := fieldName f, value := current,
             historical_mean := some (roundTo 2 mean_value),
             deviation_percentage := some (roundTo 1 (deviation * 100)) }]
        else []
      else []

/-- The loop of `_check_statistical_anomalies` over the six checked fields. -/
def check_statistical_anomalies (threshold_pct : ℚ) (new_vital : Vitals)
    (historical_vitals : List Vitals) : List VFinding :=
  ([VitalField.systolic, .diastolic, .heart_rate, .temperature, .blood_glucose,
    .oxygen_saturation].map
    (check_statistical_field threshold_pct new_vital historical_vitals)).flatten

/-- Translation of `AnomalyDetector.check_vitals_anomalies`: emergency pass first, then the
    statistical pass when at least 3 historical readings exist. -/
def check_vitals_anomalies (threshold_pct : ℚ) (new_vital : Vitals)
    (historical_vitals : List Vitals) : List VFinding :=
  check_emergency_thresholds new_vital
  ++ (if historical_vitals.length ≥ 3 then
        check_statistical_anomalies threshold_pct new_vital historical_vitals
      else [])

/-- Count of historical readings with a non-null value of field `f`. -/
def nonNullCount (historical_vitals : List Vitals) (f : VitalField) : ℕ :=
  ((historical_vitals.map (fun v => fieldGet v f)).reduceOption).length

lemma mem_systolicEmergency {v : Vitals} {f : VFinding} (h : f ∈ systolicEmergency v) :
    f.vital_type = "systolic_bp" ∧ f.title = "Hypertensive Crisis"
    ∧ f.atype = .VITAL_EMERGENCY := by
  unfold systolicEmergency at h
  split at h <;> simp_all

lemma mem_diastolicEmergency {v : Vitals} {f : VFinding} (h : f ∈ diastolicEmergency v) :
    f.vital_type = "diastolic_bp" ∧ f.title = "Diastolic Hypertensive Crisis"
    ∧ f.atype = .VITAL_EMERGENCY := by
  unfold diastolicEmergency at h
  split at h <;> simp_all

lemma mem_heartRateEmergency {v : Vitals} {f : VFinding} (h : f ∈ heartRateEmergency v) :
    f.vital_type = "heart_rate"
    ∧ (f.title = "Tachycardia Detected" ∨ f.title = "Bradycardia Detected")
    ∧ f.atype = .VITAL_EMERGENCY := by
  unfold heartRateEmergency at h
  split at h <;> [skip; simp_all]
  split at h <;> [simp_all; skip]
  split at h <;> simp_all

lemma mem_oxygenEmergency {v : Vitals} {f : VFinding} (h : f ∈ oxygenEmergency v) :
    f.vital_type = "oxygen_saturation"
    ∧ (f.title = "Low Oxygen Saturation" ∨ f.title = "Reduced Oxygen Saturation")
    ∧ f.atype = .VITAL_EMERGENCY := by
  unfold oxygenEmergency at h
  split at h <;> [skip; simp_all]
  split at h <;> [simp_all; skip]
  split at h <;> simp_all

lemma mem_glucoseEmergency {v : Vitals} {f : VFinding} (h : f ∈ glucoseEmergency v) :
    f.vital_type = "blood_glucose"
    ∧ (f.title = "Severe Hyperglycemia" ∨ f.title = "Hypoglycemia")
    ∧ f.atype = .VITAL_EMERGENCY := by
  unfold glucoseEmergency at h
  split at h <;> [skip; simp_all]
  split at h <;> [simp_all; skip]
  split at h <;> simp_all

lemma mem_temperatureEmergency {v : Vitals} {f : VFinding} (h : f ∈ temperatureEmergency v) :
    f.vital_type = "temperature"
    ∧ (f.title = "High Fever" ∨ f.title = "Hypothermia Risk")
    ∧ f.atype = .VITAL_EMERGENCY := by
  unfold temperatureEmergency at h
  split at h <;> [skip; simp_all]
  split at h <;> [simp_all; skip]
  split at h <;> simp_all

/-- Every emergency finding has alert type `VITAL_EMERGENCY`. -/
lemma mem_emergency_atype {v : Vitals} {f : VFinding}
    (h : f ∈ check_emergency_thresholds v) : f.atype = .VITAL_EMERGENCY := by
  unfold check_emergency_thresholds at h
  simp only [List.mem_append] at h
  rcases h with ((((h | h) | h) | h) | h) | h
  · exact (mem_systolicEmergency h).2.2
  · exact (mem_diastolicEmergency h).2.2
  · exact (mem_heartRateEmergency h).2.2
  · exact (mem_oxygenEmergency h).2.2
  · exact (mem_glucoseEmergency h).2.2
  · exact (mem_temperatureEmergency h).2.2

/-- Every statistical finding for field `g` carries `g`'s attribute name and
    alert type `ANOMALY`. -/
lemma mem_check_statistical_field {thr : ℚ} {nv : Vitals} {hist : List Vitals}
    {g : VitalField} {fd : VFinding} (h : fd ∈ check_statistical_field thr nv hist g) :
    fd.vital_type = fieldName g ∧ fd.atype = .ANOMALY := by
  unfold check_statistical_field at h
  rcases hg : fieldGet nv g with _ | cur
  · rw [hg] at h
    simp at h
  · rw [hg] at h
    simp only at h
    split at h <;> [simp_all; skip]
    split at h <;> [skip; simp_all]
    split at h <;> simp_all

/-- Injectivity of the attribute-name strings of the six checked fields. -/
lemma fieldName_inj {g f : VitalField} (h : fieldName g = fieldName f) : g = f := by
  cases g <;> cases f <;> simp_all [fieldName]

lemma filter_not_mem_title {l : List VFinding} {t : String}
    (h : ∀ f ∈ l, f.title ≠ t) : l.filter (fun f => f.title == t) = [] := by
  rw [List.filter_eq_nil_iff]
  intro a ha
  simpa using h a ha

lemma check_statistical_field_nil {thr : ℚ} {nv : Vitals} {hist : List Vitals}
    {f : VitalField} (h : nonNullCount hist f < 3) :
    check_statistical_field thr nv hist f = [] := by
  unfold check_statistical_field
  rcases hg : fieldGet nv f with _ | cur
  · rfl
  · simp only
    have h' : (List.map (fun v => fieldGet v f) hist).reduceOption.length < 3 := h
    rw [if_pos h']

lemma heartRateEmergency_zero {v : Vitals} (h : v.heart_rate = some 0) :
    heartRateEmergency v = [] := by
  unfold heartRateEmergency
  rw [if_neg]
  simp [pyTruthy, h]

lemma glucoseEmergency_zero {v : Vitals} (h : v.blood_glucose = some 0) :
    glucoseEmergency v = [] := by
  unfold glucoseEmergency
  rw [if_neg]
  simp [pyTruthy, h]

lemma temperatureEmergency_zero {v : Vitals} (h : v.temperature = some 0) :
    temperatureEmergency v = [] := by
  unfold temperatureEmergency
  rw [if_neg]
  simp [pyTruthy, h]

/-- C5: for every reading whose systolic value is present and strictly greater
    than 180, the emergency pass yields exactly the urgent "Hypertensive Crisis"
    finding; for systolic exactly 180 this rule yields no finding. -/
theorem hypertensive_crisis_boundary (v : Vitals) (s : ℚ) (hs : v.systolic = some s) :
    (s > 180 →
      (check_emergency_thresholds v).filter (fun f => f.title == "Hypertensive Crisis") =
        [{ severity := .URGENT, atype := .VITAL_EMERGENCY, title := "Hypertensive Crisis",
           recommendation := "Seek immediate medical attention",
           vital_type := "systolic_bp", value := s }])
    ∧ (s = 180 →
      (check_emergency_thresholds v).filter (fun f => f.title == "Hypertensive Crisis") = []) := by
  have hdia : (diastolicEmergency v).filter (fun f => f.title == "Hypertensive Crisis") = [] :=
    filter_not_mem_title (fun f hf => by simp [(mem_diastolicEmergency hf).2.1])
  have hhr : (heartRateEmergency v).filter (fun f => f.title == "Hypertensive Crisis") = [] :=
    filter_not_mem_title (fun f hf => by
      rcases (mem_heartRateEmergency hf).2.1 with h | h <;> simp [h])
  have hoxy : (oxygenEmergency v).filter (fun f => f.title == "Hypertensive Crisis") = [] :=
    filter_not_mem_title (fun f hf => by
      rcases (mem_oxygenEmergency hf).2.1 with h | h <;> simp [h])
  have hglu : (glucoseEmergency v).filter (fun f => f.title == "Hypertensive Crisis") = [] :=
    filter_not_mem_title (fun f hf => by
      rcases (mem_glucoseEmergency hf).2.1 with h | h <;> simp [h])
  have htemp : (temperatureEmergency v).filter (fun f => f.title == "Hypertensive Crisis") = [] :=
    filter_not_mem_title (fun f hf => by
      rcases (mem_temperatureEmergency hf).2.1 with h | h <;> simp [h])
  constructor
  · intro hgt
    have hcond : pyTruthy v.systolic ∧ v.systolic.getD 0 > 180 := by
      refine ⟨?_, by rw [hs]; simpa using hgt⟩
      rw [hs]
      simp only [pyTruthy, decide_eq_true_eq]
      exact ne_of_gt (lt_trans (by norm_num) hgt)
    unfold check_emergency_thresholds
    simp only [List.filter_append, hdia, hhr, hoxy, hglu, htemp,
      List.append_nil]
    unfold systolicEmergency
    rw [if_pos hcond, hs]
    simp [List.filter]
  · intro h180
    subst h180
    unfold check_emergency_thresholds
    simp only [List.filter_append, hdia, hhr, hoxy, hglu, htemp,
      List.append_nil]
    unfold systolicEmergency
    rw [if_neg]
    · rfl
    · rintro ⟨-, hgt⟩
      rw [hs] at hgt
      exact absurd hgt (by norm_num)

/-- Witness for C5 at systolic 190 (fires) and 180 (does not). -/
theorem hypertensive_crisis_boundary_witness :
    (check_emergency_thresholds { systolic := some 190 }).filter
        (fun f => f.title == "Hypertensive Crisis") =
      [{ severity := .URGENT, atype := .VITAL_EMERGENCY, title := "Hypertensive Crisis",
         recommendation := "Seek immediate medical attention",
         vital_type := "systolic_bp", value := 190 }]
    ∧ (check_emergency_thresholds { systolic := some 180 }).filter
        (fun f => f.title == "Hypertensive Crisis") = [] :=
  ⟨(hypertensive_crisis_boundary { systolic := some 190 } 190 rfl).1 (by norm_num),
   (hypertensive_crisis_boundary { systolic := some 180 } 180 rfl).2 rfl⟩

/-- C6: when the historical window has fewer than 3 non-null values of a field,
    the statistical pass contributes no anomaly finding for that field (and, the
    functions being total, no error is possible). -/
theorem statistical_skip_insufficient (thr : ℚ) (nv : Vitals) (hist : List Vitals)
    (f : VitalField) (h : nonNullCount hist f < 3) :
    (check_vitals_anomalies thr nv hist).filter
      (fun fd => fd.atype == AlertType.ANOMALY && fd.vital_type == fieldName f) = [] := by
  rw [List.filter_eq_nil_iff]
  intro fd hfd
  unfold check_vitals_anomalies at hfd
  simp only [List.mem_append] at hfd
  rcases hfd with hfd | hfd
  · have := mem_emergency_atype hfd
    simp [this]
  · split at hfd
    · unfold check_statistical_anomalies at hfd
      simp only [List.mem_flatten, List.mem_map] at hfd
      obtain ⟨l, ⟨g, hg, rfl⟩, hmem⟩ := hfd
      obtain ⟨hvt, hat⟩ := mem_check_statistical_field hmem
      by_cases hgf : g = f
      · subst hgf
        rw [check_statistical_field_nil h] at hmem
        simp at hmem
      · have hne : fieldName g ≠ fieldName f := fun he => hgf (fieldName_inj he)
        simp [hvt, hne]
    · simp at hfd

/-- Witness for C6: a 3-reading window with only 2 non-null heart rates. -/
theorem statistical_skip_insufficient_witness :
    nonNullCount [{ heart_rate := some 100 }, { heart_rate := some 100 },
      { systolic := some 120 }] VitalField.heart_rate < 3
    ∧ (check_vitals_anomalies 20 { heart_rate := some 100 }
        [{ heart_rate := some 100 }, { heart_rate := some 100 },
         { systolic := some 120 }]).filter
        (fun fd => fd.atype == AlertType.ANOMALY
          && fd.vital_type == fieldName VitalField.heart_rate) = [] :=
  ⟨by decide,
   statistical_skip_insufficient 20 { heart_rate := some 100 }
     [{ heart_rate := some 100 }, { heart_rate := some 100 },
      { systolic := some 120 }] VitalField.heart_rate (by decide)⟩

/-- C9: a vital equal to exactly 0 is treated as absent by the emergency pass
    (Python truthiness), so heart rate, blood glucose or temperature 0 emits no
    finding for that field even though 0 is below the low-side thresholds. -/
theorem zero_vital_skips_emergency (v : Vitals) :
    (v.heart_rate = some 0 →
      (check_emergency_thresholds v).filter (fun fd => fd.vital_type == "heart_rate") = [])
    ∧ (v.blood_glucose = some 0 →
      (check_emergency_thresholds v).filter (fun fd => fd.vital_type == "blood_glucose") = [])
    ∧ (v.temperature = some 0 →
      (check_emergency_thresholds v).filter (fun fd => fd.vital_type == "temperature") = []) := by
  refine ⟨fun hz => ?_, fun hz => ?_, fun hz => ?_⟩ <;>
  · rw [List.filter_eq_nil_iff]
    intro fd hfd
    unfold check_emergency_thresholds at hfd
    simp only [List.mem_append] at hfd
    rcases hfd with ((((h | h) | h) | h) | h) | h
    · simp [(mem_systolicEmergency h).1]
    · simp [(mem_diastolicEmergency h).1]
    · first
      | (rw [heartRateEmergency_zero hz] at h; simp at h)
      | simp [(mem_heartRateEmergency h).1]
    · simp [(mem_oxygenEmergency h).1]
    · first
      | (rw [glucoseEmergency_zero hz] at h; simp at h)
      | simp [(mem_glucoseEmergency h).1]
    · first
      | (rw [temperatureEmergency_zero hz] at h; simp at h)
      | simp [(mem_temperatureEmergency h).1]

/-- Witness for C9: all three fields at exactly 0 produce no emergency finding. -/
theorem zero_vital_skips_emergency_witness :
    (check_emergency_thresholds
        { heart_rate := some 0, blood_glucose := some 0, temperature := some 0 }).filter
      (fun fd => fd.vital_type == "heart_rate") = []
    ∧ (check_emergency_thresholds
        { heart_rate := some 0, blood_glucose := some 0, temperature := some 0 }).filter
      (fun fd => fd.vital_type == "blood_glucose") = []
    ∧ (check_emergency_thresholds
        { heart_rate := some 0, blood_glucose := some 0, temperature := some 0 }).filter
      (fun fd => fd.vital_type == "temperature") = [] :=
  ⟨(zero_vital_skips_emergency _).1 rfl,
   (zero_vital_skips_emergency _).2.1 rfl,
   (zero_vital_skips_emergency _).2.2 rfl⟩

/-! ## RiskScoringEngine (`app/services/risk_service.py`) -/

/-- The `drivers` dict of `calculate_hypertension_risk`: either one of the two
    insufficient-data shapes, or the statistics (rounded averages, count, and
    the conditionally-added `high_systolic` / `high_diastolic` flags, modelled
    as booleans). -/
inductive HTNDrivers where
  | insufficient
  | noData
  | stats (avg_systolic avg_diastolic : ℚ) (readings_count : ℕ)
      (high_systolic high_diastolic : Bool)
deriving DecidableEq, Repr

/-- The `drivers` dict of `calculate_diabetes_risk`. -/
inductive DiabetesDrivers where
  | noData
  | stats (avg_glucose max_glucose : ℚ) (readings_count : ℕ)
deriving DecidableEq, Repr

/-- The dict returned by the risk calculators.  The early insufficient-data
    returns in the Python code carry no `recommendations` key, hence `Option`. -/
structure RiskResult (D : Type) where
  score : ℚ
  risk_level : String
  drivers : D
  confidence : ℕ
  recommendations : Option (List String)
deriving DecidableEq, Repr

/-- Translation of `RiskCalculator._get_hypertension_recommendations`. -/
def hypertension_recommendations (score : ℚ) : List String :=
  (if score > 50 then
    ["Monitor blood pressure daily", "Reduce sodium intake", "Increase physical activity"]
   else [])
  ++ (if score > 75 then
    ["Consult healthcare provider immediately", "Consider medication review"]
   else [])

/-- Translation of `RiskCalculator._get_diabetes_recommendations`. -/
def diabetes_recommendations (score : ℚ) : List String :=
  (if score > 30 then
    ["Monitor blood glucose regularly", "Follow diabetic diet guidelines",
     "Maintain regular exercise routine"]
   else [])
  ++ (if score > 70 then
    ["Urgent medical consultation required", "Review medication adherence"]
   else [])

/-- The `bp_readings` list comprehension of `calculate_hypertension_risk`:
    `[(v.systolic, v.diastolic) for v in vitals_list if v.systolic and v.diastolic]`
    (Python truthiness: both fields non-null and non-zero). -/
def bpReadings (vitals_list : List Vitals) : List (ℚ × ℚ) :=
  (vitals_list.filter (fun v => pyTruthy v.systolic && pyTruthy v.diastolic)).map
    (fun v => (v.systolic.getD 0, v.diastolic.getD 0))

/-- Translation of `RiskCalculator.calculate_hypertension_risk`. -/
def calculate_hypertension_risk (vitals_list : List Vitals) : RiskResult HTNDrivers :=
  if vitals_list.isEmpty then
    { score := 0, risk_level := "low", drivers := .insufficient, confidence := 0,
      recommendations := none }
  else
    let bp_readings := bpReadings vitals_list
    if bp_readings.isEmpty then
      { score := 0, risk_level := "low", drivers := .noData, confidence := 0,
        recommendations := none }
    else
      let avg_systolic := listMean (bp_readings.map Prod.fst)
      let avg_diastolic := listMean (bp_readings.map Prod.snd)
      let systolic_score := max 0 ((avg_systolic - 120) * 1.2)
      let diastolic_score := max 0 ((avg_diastolic - 80) * 1.5)
      let raw_score := systolic_score + diastolic_score
      let score := min 100 (max 0 raw_score)
      let risk_level := if score < 20 then "low" else if score < 50 then "moderate"
        else if score < 80 then "high" else "critical"
      { score := roundTo 2 score, risk_level := risk_level,
        drivers := .stats (roundTo 1 avg_systolic) (roundTo 1 avg_diastolic)
          bp_readings.length (decide (avg_systolic > 140)) (decide (avg_diastolic > 90)),
        confidence := min 100 (bp_readings.length * 20),
        recommendations := some (hypertension_recommendations score) }

/-- The `glucose_readings` list comprehension of `calculate_diabetes_risk`
    (`is not None` test, not truthiness). -/
def glucoseReadings (vitals_list : List Vitals) : List ℚ :=
  (vitals_list.map (fun v => v.blood_glucose)).reduceOption

/-- Translation of `RiskCalculator.calculate_diabetes_risk`. -/
def calculate_diabetes_risk (vitals_list : List Vitals) : RiskResult DiabetesDrivers :=
  match glucoseReadings vitals_list with
  | [] =>
    { score := 0, risk_level := "low", drivers := .noData, confidence := 0,
      recommendations := none }
  | g :: gs =>
    let glucose_readings := g :: gs
    let avg_glucose := listMean glucose_readings
    let max_glucose := gs.foldl max g
    let score0 := if avg_glucose < 100 then 0
      else if avg_glucose < 126 then 30 + (avg_glucose - 100) * 1.5
      else 70 + min 30 ((avg_glucose - 126) * 0.5)
    let score1 := if max_glucose > 200 then max score0 80 else score0
    let score := min 100 (max 0 score1)
    let risk_level := if score < 25 then "low" else if score < 50 then "moderate"
      else if score < 75 then "high" else "critical"
    { score := roundTo 2 score, risk_level := risk_level,
      drivers := .stats (roundTo 1 avg_glucose) (roundTo 1 max_glucose)
        glucose_readings.length,
      confidence := min 100 (glucose_readings.length * 25),
      recommendations := some (diabetes_recommendations score) }

/-- The hypertension score exactly as the spec words it:
    `clamp(max(0,(mean_systolic-120)*1.2) + max(0,(mean_diastolic-80)*1.5), 0, 100)`,
    means taken over the BP readings. -/
def hypertensionScoreSpec (vitals_list : List Vitals) : ℚ :=
  let bp := bpReadings vitals_list
  let mean_systolic := listMean (bp.map Prod.fst)
  let mean_diastolic := listMean (bp.map Prod.snd)
  min 100 (max 0 (max 0 ((mean_systolic - 120) * 1.2) + max 0 ((mean_diastolic - 80) * 1.5)))

/-- The spec's hypertension level bands: <20 low, <50 moderate, <80 high, else critical. -/
def hypertensionBandSpec (s : ℚ) : String :=
  if s < 20 then "low" else if s < 50 then "moderate"
  else if s < 80 then "high" else "critical"

lemma roundHalfEven_intCast (z : ℤ) : roundHalfEven (z : ℚ) = z := by
  unfold roundHalfEven
  rw [Int.floor_intCast]
  norm_num

lemma roundTo_82 : roundTo 2 (82 : ℚ) = 82 := by
  have h : ((82 : ℚ) * 10 ^ 2) = ((8200 : ℤ) : ℚ) := by norm_num
  unfold roundTo
  rw [h, roundHalfEven_intCast]
  norm_num

/-- A 5-reading window whose blood-glucose mean is exactly 150 mg/dL. -/
def c1Window : List Vitals :=
  [{ blood_glucose := some 150 }, { blood_glucose := some 150 },
   { blood_glucose := some 150 }, { blood_glucose := some 150 },
   { blood_glucose := some 150 }]

lemma glucose_c1 : glucoseReadings c1Window = [150, 150, 150, 150, 150] := rfl

lemma mean_c1 : listMean (glucoseReadings c1Window) = 150 := by
  rw [glucose_c1]
  norm_num [listMean]

/-- Shared computation: any window with at least 5 glucose readings of mean 150
    scores 82 and lands in the "critical" band. -/
lemma diabetes_mean150_core (vitals_list : List Vitals)
    (h5 : 5 ≤ (glucoseReadings vitals_list).length)
    (hmean : listMean (glucoseReadings vitals_list) = 150) :
    (calculate_diabetes_risk vitals_list).score = 82
    ∧ (calculate_diabetes_risk vitals_list).risk_level = "critical" := by
  rcases hg : glucoseReadings vitals_list with _ | ⟨g, gs⟩
  · rw [hg] at h5
    simp at h5
  · rw [hg] at hmean
    unfold calculate_diabetes_risk
    rw [hg]
    simp only [hmean]
    norm_num [roundTo_82]

/-- C1 counterexample: on a 5-reading window with glucose mean 150 the code
    returns risk_level "critical" (score 82 falls in the `else` band of
    `< 75 high`), not "high" as the claim states. -/
theorem diabetes_mean150_counterexample :
    (glucoseReadings c1Window).length = 5
    ∧ listMean (glucoseReadings c1Window) = 150
    ∧ (calculate_diabetes_risk c1Window).risk_level = "critical"
    ∧ (calculate_diabetes_risk c1Window).risk_level ≠ "high" := by
  have h := diabetes_mean150_core c1Window (by decide) mean_c1
  exact ⟨by decide, mean_c1, h.2, by rw [h.2]; decide⟩

/-- C1 amended: every window with at least 5 glucose readings of mean 150
    scores exactly 82 (inside [70, 92.5]) with risk_level "critical". -/
theorem diabetes_mean150_amended (vitals_list : List Vitals)
    (h5 : 5 ≤ (glucoseReadings vitals_list).length)
    (hmean : listMean (glucoseReadings vitals_list) = 150) :
    (calculate_diabetes_risk vitals_list).score = 82
    ∧ 70 ≤ (calculate_diabetes_risk vitals_list).score
    ∧ (calculate_diabetes_risk vitals_list).score ≤ 92.5
    ∧ (calculate_diabetes_risk vitals_list).risk_level = "critical" := by
  obtain ⟨hsc, hlv⟩ := diabetes_mean150_core vitals_list h5 hmean
  refine ⟨hsc, ?_, ?_, hlv⟩ <;> rw [hsc] <;> norm_num

/-- Witness for C1's amended claim at the concrete 5-reading window. -/
theorem diabetes_mean150_amended_witness :
    (5 ≤ (glucoseReadings c1Window).length
      ∧ listMean (glucoseReadings c1Window) = 150)
    ∧ ((calculate_diabetes_risk c1Window).score = 82
      ∧ 70 ≤ (calculate_diabetes_risk c1Window).score
      ∧ (calculate_diabetes_risk c1Window).score ≤ 92.5
      ∧ (calculate_diabetes_risk c1Window).risk_level = "critical") :=
  ⟨⟨by decide, mean_c1⟩,
   diabetes_mean150_amended c1Window (by decide) mean_c1⟩

/-- Shared computation: for any window with at least one truthy BP pair, the
    returned dict is the rounded spec formula, the spec bands on the unrounded
    clamp, and the count-based confidence. -/
lemma hypertension_eval (vitals_list : List Vitals)
    (hbp : bpReadings vitals_list ≠ []) :
    (calculate_hypertension_risk vitals_list).score
        = roundTo 2 (hypertensionScoreSpec vitals_list)
    ∧ (calculate_hypertension_risk vitals_list).risk_level
        = hypertensionBandSpec (hypertensionScoreSpec vitals_list)
    ∧ (calculate_hypertension_risk vitals_list).confidence
        = min 100 ((bpReadings vitals_list).length * 20) := by
  have hvl : ¬ vitals_list.isEmpty = true := by
    intro h
    rw [List.isEmpty_iff] at h
    subst h
    exact hbp rfl
  have hbe : ¬ (bpReadings vitals_list).isEmpty = true := by
    rwa [List.isEmpty_iff]
  unfold calculate_hypertension_risk
  rw [if_neg hvl, if_neg hbe]
  exact ⟨rfl, rfl, rfl⟩

lemma roundTo_48_35 : roundTo 2 (48 / 35 : ℚ) = 137 / 100 := by
  unfold roundTo roundHalfEven
  have h1 : ((48 / 35 : ℚ) * 10 ^ 2) = 960 / 7 := by norm_num
  have h2 : ⌊(960 / 7 : ℚ)⌋ = 137 := by
    rw [Int.floor_eq_iff]
    constructor <;> norm_num
  rw [h1, h2]
  norm_num

/-- A 7-reading BP window whose mean systolic (848/7) makes the clamped raw
    score 48/35, which is not representable in 2 decimal places. -/
def c3Window : List Vitals :=
  [{ systolic := some 121, diastolic := some 80 }, { systolic := some 121, diastolic := some 80 },
   { systolic := some 121, diastolic := some 80 }, { systolic := some 121, diastolic := some 80 },
   { systolic := some 121, diastolic := some 80 }, { systolic := some 121, diastolic := some 80 },
   { systolic := some 122, diastolic := some 80 }]

lemma bp_c3 : bpReadings c3Window =
    [(121, 80), (121, 80), (121, 80), (121, 80), (121, 80), (121, 80), (122, 80)] := rfl

lemma spec_c3 : hypertensionScoreSpec c3Window = 48 / 35 := by
  unfold hypertensionScoreSpec
  rw [bp_c3]
  norm_num [listMean, max_def, min_def]

/-- C3 counterexample: the returned score is rounded to 2 decimals
    (`round(score, 2)`), so on this 7-reading window it is 1.37, not the exact
    clamp value 48/35 the claim specifies. -/
theorem hypertension_formula_counterexample :
    bpReadings c3Window ≠ []
    ∧ (calculate_hypertension_risk c3Window).score = 137 / 100
    ∧ hypertensionScoreSpec c3Window = 48 / 35
    ∧ (calculate_hypertension_risk c3Window).score ≠ hypertensionScoreSpec c3Window := by
  have h := (hypertension_eval c3Window (by decide)).1
  rw [spec_c3, roundTo_48_35] at h
  refine ⟨by decide, h, spec_c3, ?_⟩
  rw [h, spec_c3]
  norm_num

/-- C3 amended: for every window with at least one reading whose systolic and
    diastolic are both truthy, the returned score is
    `round(clamp(max(0,(mean_sys-120)*1.2)+max(0,(mean_dia-80)*1.5),0,100), 2)`,
    the risk level follows the <20/<50/<80 bands on the unrounded clamp, and
    confidence is `min(100, count*20)`. -/
theorem hypertension_formula_amended (vitals_list : List Vitals)
    (hbp : bpReadings vitals_list ≠ []) :
    (calculate_hypertension_risk vitals_list).score
        = roundTo 2 (hypertensionScoreSpec vitals_list)
    ∧ (calculate_hypertension_risk vitals_list).risk_level
        = hypertensionBandSpec (hypertensionScoreSpec vitals_list)
    ∧ (calculate_hypertension_risk vitals_list).confidence
        = min 100 ((bpReadings vitals_list).length * 20) :=
  hypertension_eval vitals_list hbp

/-- Witness for C3's amended claim at the 7-reading window. -/
theorem hypertension_formula_amended_witness :
    bpReadings c3Window ≠ []
    ∧ ((calculate_hypertension_risk c3Window).score
        = roundTo 2 (hypertensionScoreSpec c3Window)
      ∧ (calculate_hypertension_risk c3Window).risk_level
        = hypertensionBandSpec (hypertensionScoreSpec c3Window)
      ∧ (calculate_hypertension_risk c3Window).confidence
        = min 100 ((bpReadings c3Window).length * 20)) :=
  ⟨by decide, hypertension_formula_amended c3Window (by decide)⟩

/-! ## MedicationSafetyAnalyzer (`app/services/prescription_analyzer.py`)

Python strings are modelled as character lists (`PyStr`) so that `.strip()`,
`.lower()` and substring tests compute structurally.  Lookup against the
external `DrugInteraction` knowledge base is modelled as `List.find?` over a
list of records; `scalar_one_or_none` agrees with first-match whenever at most
one record matches, which is the situation in all claims considered here. -/

abbrev PyStr := List Char

/-- Whitespace for Python `str.strip()`. -/
def isPySpace (c : Char) : Bool :=
  c = ' ' || c = '\t' || c = '\n' || c = '\r' || c = '\x0b' || c = '\x0c'

/-- Python `str.strip()`. -/
def pyStrip (s : PyStr) : PyStr :=
  ((s.dropWhile isPySpace).reverse.dropWhile isPySpace).reverse

/-- Python `str.lower()` (ASCII case mapping, which covers every name compared here). -/
def pyLower (s : PyStr) : PyStr := s.map Char.toLower

/-- Translation of `_norm`: `(name or "").strip().lower()`. -/
def pyNorm (s : PyStr) : PyStr := pyLower (pyStrip s)

/-- Python substring test `sub in s`. -/
def pyIn : PyStr → PyStr → Bool
  | sub, [] => sub.isEmpty
  | sub, c :: t => sub.isPrefixOf (c :: t) || pyIn sub t

/-- A parsed medication dict: `name` / `dose` / `frequency`, each defaulting
    to the empty string when the key is absent or None. -/
structure Med where
  name : PyStr := []
  dose : PyStr := []
  frequency : PyStr := []
deriving DecidableEq, Repr

/-- A row of the external `DrugInteraction` knowledge base
    (`app/models/drug_interaction.py`). -/
structure DrugInteraction where
  drug_a : PyStr
  drug_b : PyStr
  severity : PyStr
  description : PyStr := []
  mechanism : PyStr := []
  clinical_management : PyStr := []
deriving DecidableEq, Repr

/-- An entry of the `interactions` list produced by `check_interactions`. -/
structure InteractionEntry where
  drugA : PyStr
  drugB : PyStr
  severity : PyStr
  description : PyStr
  mechanism : PyStr
  management : PyStr
deriving DecidableEq, Repr

/-- The comprehension `names = [m.get("name", "").strip() for m in meds if m.get("name")]`. -/
def namesOf (meds : List Med) : List PyStr :=
  (meds.filter (fun m => !m.name.isEmpty)).map (fun m => pyStrip m.name)

/-- One step of building the Python dict `{n.lower(): n for n in names}`:
    an existing key keeps its position and takes the new value. -/
def dictInsert (d : List (PyStr × PyStr)) (k v : PyStr) : List (PyStr × PyStr) :=
  if d.any (fun p => p.1 == k) then
    d.map (fun p => if p.1 == k then (k, v) else p)
  else d ++ [(k, v)]

/-- The dict build `unique = list({n.lower(): n for n in names}.values())`. -/
def uniqueNames (names : List PyStr) : List PyStr :=
  (names.foldl (fun d n => dictInsert d (pyLower n) n) []).map Prod.snd

/-- The index pairs `i < j` of the nested loops, in loop order. -/
def allPairs : List PyStr → List (PyStr × PyStr)
  | [] => []
  | x :: xs => xs.map (fun y => (x, y)) ++ allPairs xs

/-- The SQL predicate: `(lower(drug_a)=lower(a) and lower(drug_b)=lower(b)) or
    (lower(drug_a)=lower(b) and lower(drug_b)=lower(a))`. -/
def interactionMatch (a b : PyStr) (r : DrugInteraction) : Bool :=
  (pyLower r.drug_a == pyLower a && pyLower r.drug_b == pyLower b)
  || (pyLower r.drug_a == pyLower b && pyLower r.drug_b == pyLower a)

/-- Translation of `check_interactions`: for every unordered pair of distinct normalized
    names, look the pair up in the knowledge base (case-insensitive,
    symmetric) and collect the matches. -/
def check_interactions (kb : List DrugInteraction) (meds : List Med) :
    List InteractionEntry :=
  (allPairs (uniqueNames (namesOf meds))).filterMap (fun p =>
    (kb.find? (interactionMatch p.1 p.2)).map (fun r =>
      { drugA := p.1, drugB := p.2, severity := r.severity,
        description := r.description, mechanism := r.mechanism,
        management := r.clinical_management }))

/-- A dosage/frequency/duplicate finding dict: `severity`, `type`, `message`. -/
structure PFinding where
  severity : PyStr
  ftype : PyStr
  message : PyStr
deriving DecidableEq, Repr

/-- The per-medication keyword heuristics of `check_dosage_rules`. -/
def dosageFindings (m : Med) : List PFinding :=
  let name := pyNorm m.name
  let dose := pyLower m.dose
  let freq := pyLower m.frequency
  (if pyIn "paracetamol".data name || pyIn "acetaminophen".data name then
    (if pyIn "1000".data dose then
      [{ severity := "medium".data, ftype := "dose".data,
         message := "High single dose of paracetamol (1000 mg). Review total daily dose.".data }]
     else [])
    ++ (if pyIn "650".data dose && (pyIn "three".data freq || pyIn "four".data freq) then
      [{ severity := "medium".data, ftype := "frequency".data,
         message := "Paracetamol 650 mg taken ≥3 times daily may exceed safe limits.".data }]
     else [])
   else [])
  ++ (if pyIn "amoxicillin".data name
        && !(["twice".data, "three".data, "every 8".data].any (fun w => pyIn w freq)) then
    [{ severity := "low".data, ftype := "frequency".data,
       message := "Amoxicillin frequency looks uncommon; verify dosing interval.".data }]
   else [])

/-- One step of the duplicate counter `seen[n] = seen.get(n, 0) + 1`. -/
def countInsert (d : List (PyStr × ℕ)) (k : PyStr) : List (PyStr × ℕ) :=
  if d.any (fun p => p.1 == k) then
    d.map (fun p => if p.1 == k then (p.1, p.2 + 1) else p)
  else d ++ [(k, 1)]

/-- The duplicate-detection loop of `check_dosage_rules`: one low-severity
    finding per normalized name occurring more than once. -/
def dupFindings (meds : List Med) : List PFinding :=
  let seen := meds.foldl (fun d m =>
    let n := pyNorm m.name
    if n.isEmpty then d else countInsert d n) []
  (seen.filter (fun p => p.2 > 1)).map (fun p =>
    { severity := "low".data, ftype := "duplicate".data,
      message := "Duplicate medication entries detected for \x27".data
        ++ p.1 ++ "\x27.".data })

/-- Translation of `check_dosage_rules`: keyword findings in medication order, then duplicates. -/
def check_dosage_rules (meds : List Med) : List PFinding :=
  (meds.map dosageFindings).flatten ++ dupFindings meds

/-- A `{severity, message}` flag surfaced to the caller. -/
structure Flag where
  severity : PyStr
  message : PyStr
deriving DecidableEq, Repr

/-- Interaction severity to flag severity: major/contraindicated are high,
    moderate is medium, anything else low. -/
def interactionFlagSeverity (sev : PyStr) : PyStr :=
  if sev == "major".data || sev == "contraindicated".data then "high".data
  else if sev == "moderate".data then "medium".data
  else "low".data

/-- The flag derived from one interaction entry. -/
def interactionFlag (it : InteractionEntry) : Flag :=
  { severity := interactionFlagSeverity it.severity,
    message := "Interaction: ".data ++ it.drugA ++ " + ".data ++ it.drugB
      ++ " — ".data ++ it.description }

/-- Python `str.capitalize()`: first character upper-cased, the rest lowered. -/
def pyCapitalize (s : PyStr) : PyStr :=
  match s with
  | [] => []
  | c :: cs => c.toUpper :: cs.map Char.toLower

/-- Python `sep.join(parts)`. -/
def joinSep (sep : PyStr) : List PyStr → PyStr
  | [] => []
  | [x] => x
  | x :: y :: t => x ++ sep ++ joinSep sep (y :: t)

/-- Decimal rendering of a count, for the interaction clause of the summary. -/
def natToPyStr (n : ℕ) : PyStr := (toString n).data

/-- The analysis bundle returned by `analyze_prescription`. -/
structure AnalysisResult where
  summary : PyStr
  interactions : List InteractionEntry
  findings : List PFinding
  flags : List Flag
deriving DecidableEq, Repr

/-- Translation of `analyze_prescription`: interactions, findings, deterministic summary and
    the flattened flag list. -/
def analyze_prescription (kb : List DrugInteraction) (meds : List Med) :
    AnalysisResult :=
  let interactions := check_interactions kb meds
  let findings := check_dosage_rules meds
  let issues :=
    (if !interactions.isEmpty then
      [natToPyStr interactions.length
        ++ " potential drug interaction(s) detected".data] else [])
    ++ (if findings.any (fun f => f.severity == "medium".data) then
      ["dosage/frequency review recommended".data] else [])
    ++ (if findings.any (fun f => f.ftype == "duplicate".data) then
      ["duplicate entries found".data] else [])
  let summary := if issues.isEmpty then
      "All medications look within expected ranges.".data
    else pyCapitalize (joinSep "; ".data issues) ++ ".".data
  { summary := summary, interactions := interactions, findings := findings,
    flags := interactions.map interactionFlag
      ++ findings.map (fun f => { severity := f.severity, message := f.message }) }

/-- C7: the list [{"name": "Metformin"}, {"name": "metformin"}] yields exactly
    one duplicate finding, for the normalized name "metformin", severity low. -/
theorem duplicate_detection_metformin :
    check_dosage_rules [{ name := "Metformin".data }, { name := "metformin".data }] =
      [{ severity := "low".data, ftype := "duplicate".data,
         message := "Duplicate medication entries detected for \x27metformin\x27.".data }] := by
  decide

/-- C8: the empty medication list yields the empty-but-valid result with the
    default summary, for every knowledge base; no failure is possible. -/
theorem analyze_empty_meds (kb : List DrugInteraction) :
    analyze_prescription kb [] =
      { summary := "All medications look within expected ranges.".data,
        interactions := [], findings := [], flags := [] } := rfl

/-- C10: when there is no interaction, no medium-severity finding and no
    duplicate finding, the summary is the default sentence, regardless of any
    remaining (low-severity, non-duplicate) findings. -/
theorem summary_reflects_major_issues (kb : List DrugInteraction) (meds : List Med)
    (h1 : check_interactions kb meds = [])
    (h2 : ∀ f ∈ check_dosage_rules meds, f.severity ≠ "medium".data)
    (h3 : ∀ f ∈ check_dosage_rules meds, f.ftype ≠ "duplicate".data) :
    (analyze_prescription kb meds).summary
      = "All medications look within expected ranges.".data := by
  have ha : (check_dosage_rules meds).any (fun f => f.severity == "medium".data) = false := by
    rw [List.any_eq_false]
    intro f hf
    simpa using h2 f hf
  have hb : (check_dosage_rules meds).any (fun f => f.ftype == "duplicate".data) = false := by
    rw [List.any_eq_false]
    intro f hf
    simpa using h3 f hf
  unfold analyze_prescription
  simp [h1, ha, hb]

/-- A medication list producing a non-empty findings list (the low-severity
    amoxicillin frequency finding) but no interaction, medium or duplicate. -/
def c10Meds : List Med := [{ name := "Amoxicillin".data, frequency := "once daily".data }]

/-- Witness for C10: the amoxicillin example has a non-empty findings list yet
    keeps the default summary. -/
theorem summary_reflects_major_issues_witness :
    (check_interactions [] c10Meds = []
      ∧ (∀ f ∈ check_dosage_rules c10Meds, f.severity ≠ "medium".data)
      ∧ (∀ f ∈ check_dosage_rules c10Meds, f.ftype ≠ "duplicate".data)
      ∧ check_dosage_rules c10Meds ≠ [])
    ∧ (analyze_prescription [] c10Meds).summary
        = "All medications look within expected ranges.".data :=
  ⟨⟨by decide, by decide, by decide, by decide⟩,
   summary_reflects_major_issues [] c10Meds (by decide) (by decide) (by decide)⟩

/-- The knowledge base of C4: exactly one record,
    (drug_a="aspirin", drug_b="warfarin", severity="major"). -/
def c4KB (desc mech mgmt : PyStr) : List DrugInteraction :=
  [{ drug_a := "aspirin".data, drug_b := "warfarin".data, severity := "major".data,
     description := desc, mechanism := mech, clinical_management := mgmt }]

lemma warfarin_aspirin_eval (w a d1 f1 d2 f2 desc mech mgmt : PyStr)
    (hw : pyNorm w = "warfarin".data) (ha : pyNorm a = "aspirin".data) :
    analyze_prescription (c4KB desc mech mgmt)
        [{ name := w, dose := d1, frequency := f1 },
         { name := a, dose := d2, frequency := f2 }] =
      { summary := pyCapitalize (joinSep "; ".data
          [natToPyStr 1 ++ " potential drug interaction(s) detected".data]) ++ ".".data,
        interactions :=
          [{ drugA := pyStrip w, drugB := pyStrip a, severity := "major".data,
             description := desc, mechanism := mech, management := mgmt }],
        findings := [],
        flags :=
          [{ severity := "high".data,
             message := "Interaction: ".data ++ pyStrip w ++ " + ".data ++ pyStrip a
               ++ " — ".data ++ desc }] } := by
  have hw' : pyLower (pyStrip w) = "warfarin".data := hw
  have ha' : pyLower (pyStrip a) = "aspirin".data := ha
  have hwne : w.isEmpty = false := by
    cases w with
    | nil => exact absurd hw (by decide)
    | cons c t => rfl
  have hane : a.isEmpty = false := by
    cases a with
    | nil => exact absurd ha (by decide)
    | cons c t => rfl
  simp [analyze_prescription, check_interactions, namesOf, uniqueNames, dictInsert,
    allPairs, interactionMatch, check_dosage_rules, dosageFindings, dupFindings,
    countInsert, interactionFlag, interactionFlagSeverity, c4KB, pyNorm,
    hw', ha', hwne, hane,
    show pyLower "aspirin".data = "aspirin".data from by decide,
    show pyLower "warfarin".data = "warfarin".data from by decide,
    show (("warfarin".data : PyStr) == "aspirin".data) = false from by decide,
    show (("aspirin".data : PyStr) == "warfarin".data) = false from by decide,
    show pyIn "paracetamol".data "warfarin".data = false from by decide,
    show pyIn "acetaminophen".data "warfarin".data = false from by decide,
    show pyIn "amoxicillin".data "warfarin".data = false from by decide,
    show pyIn "paracetamol".data "aspirin".data = false from by decide,
    show pyIn "acetaminophen".data "aspirin".data = false from by decide,
    show pyIn "amoxicillin".data "aspirin".data = false from by decide]

lemma aspirin_warfarin_eval (w a d1 f1 d2 f2 desc mech mgmt : PyStr)
    (hw : pyNorm w = "warfarin".data) (ha : pyNorm a = "aspirin".data) :
    analyze_prescription (c4KB desc mech mgmt)
        [{ name := a, dose := d2, frequency := f2 },
         { name := w, dose := d1, frequency := f1 }] =
      { summary := pyCapitalize (joinSep "; ".data
          [natToPyStr 1 ++ " potential drug interaction(s) detected".data]) ++ ".".data,
        interactions :=
          [{ drugA := pyStrip a, drugB := pyStrip w, severity := "major".data,
             description := desc, mechanism := mech, management := mgmt }],
        findings := [],
        flags :=
          [{ severity := "high".data,
             message := "Interaction: ".data ++ pyStrip a ++ " + ".data ++ pyStrip w
               ++ " — ".data ++ desc }] } := by
  have hw' : pyLower (pyStrip w) = "warfarin".data := hw
  have ha' : pyLower (pyStrip a) = "aspirin".data := ha
  have hwne : w.isEmpty = false := by
    cases w with
    | nil => exact absurd hw (by decide)
    | cons c t => rfl
  have hane : a.isEmpty = false := by
    cases a with
    | nil => exact absurd ha (by decide)
    | cons c t => rfl
  simp [analyze_prescription, check_interactions, namesOf, uniqueNames, dictInsert,
    allPairs, interactionMatch, check_dosage_rules, dosageFindings, dupFindings,
    countInsert, interactionFlag, interactionFlagSeverity, c4KB, pyNorm,
    hw', ha', hwne, hane,
    show pyLower "aspirin".data = "aspirin".data from by decide,
    show pyLower "warfarin".data = "warfarin".data from by decide,
    show (("warfarin".data : PyStr) == "aspirin".data) = false from by decide,
    show (("aspirin".data : PyStr) == "warfarin".data) = false from by decide,
    show pyIn "paracetamol".data "warfarin".data = false from by decide,
    show pyIn "acetaminophen".data "warfarin".data = false from by decide,
    show pyIn "amoxicillin".data "warfarin".data = false from by decide,
    show pyIn "paracetamol".data "aspirin".data = false from by decide,
    show pyIn "acetaminophen".data "aspirin".data = false from by decide,
    show pyIn "amoxicillin".data "aspirin".data = false from by decide]

/-- C4: with a knowledge base holding exactly the record
    (drug_a="aspirin", drug_b="warfarin", severity="major"), any two
    medications normalizing to "warfarin" and "aspirin" — in either order and
    any casing — produce exactly one interaction, and its flag severity is
    "high". -/
theorem warfarin_aspirin_interaction (w a d1 f1 d2 f2 desc mech mgmt : PyStr)
    (hw : pyNorm w = "warfarin".data) (ha : pyNorm a = "aspirin".data) :
    ((analyze_prescription (c4KB desc mech mgmt)
        [{ name := w, dose := d1, frequency := f1 },
         { name := a, dose := d2, frequency := f2 }]).interactions.length = 1
      ∧ (analyze_prescription (c4KB desc mech mgmt)
        [{ name := w, dose := d1, frequency := f1 },
         { name := a, dose := d2, frequency := f2 }]).flags.map Flag.severity
        = ["high".data])
    ∧ ((analyze_prescription (c4KB desc mech mgmt)
        [{ name := a, dose := d2, frequency := f2 },
         { name := w, dose := d1, frequency := f1 }]).interactions.length = 1
      ∧ (analyze_prescription (c4KB desc mech mgmt)
        [{ name := a, dose := d2, frequency := f2 },
         { name := w, dose := d1, frequency := f1 }]).flags.map Flag.severity
        = ["high".data]) := by
  rw [warfarin_aspirin_eval w a d1 f1 d2 f2 desc mech mgmt hw ha,
      aspirin_warfarin_eval w a d1 f1 d2 f2 desc mech mgmt hw ha]
  exact ⟨⟨rfl, rfl⟩, ⟨rfl, rfl⟩⟩

/-- Witness for C4 with mixed casing and surrounding whitespace. -/
theorem warfarin_aspirin_interaction_witness :
    (pyNorm " Warfarin".data = "warfarin".data
      ∧ pyNorm "ASPIRIN ".data = "aspirin".data)
    ∧ (((analyze_prescription (c4KB "d".data "m".data "g".data)
        [{ name := " Warfarin".data, dose := "5 mg".data, frequency := "daily".data },
         { name := "ASPIRIN ".data, dose := "75 mg".data, frequency := "daily".data }]).interactions.length = 1
      ∧ (analyze_prescription (c4KB "d".data "m".data "g".data)
        [{ name := " Warfarin".data, dose := "5 mg".data, frequency := "daily".data },
         { name := "ASPIRIN ".data, dose := "75 mg".data, frequency := "daily".data }]).flags.map Flag.severity
        = ["high".data])
    ∧ ((analyze_prescription (c4KB "d".data "m".data "g".data)
        [{ name := "ASPIRIN ".data, dose := "75 mg".data, frequency := "daily".data },
         { name := " Warfarin".data, dose := "5 mg".data, frequency := "daily".data }]).interactions.length = 1
      ∧ (analyze_prescription (c4KB "d".data "m".data "g".data)
        [{ name := "ASPIRIN ".data, dose := "75 mg".data, frequency := "daily".data },
         { name := " Warfarin".data, dose := "5 mg".data, frequency := "daily".data }]).flags.map Flag.severity
        = ["high".data])) :=
  ⟨⟨by decide, by decide⟩,
   warfarin_aspirin_interaction " Warfarin".data "ASPIRIN ".data
     "5 mg".data "daily".data "75 mg".data "daily".data
     "d".data "m".data "g".data (by decide) (by decide)⟩

/-! ## Alert model and listing (`app/models/alert.py`, `app/routers/alerts.py`,
`app/routers/vitals.py`)

`Alert.priority_score` is a column with default 0; `generated_at` is the
server-side insert timestamp, modelled as an integer supplied at creation.
No creation site in the repository passes `priority_score`, so every
constructor here leaves the default. -/

structure Alert where
  patient_id : ℕ
  generated_at : ℤ
  severity : AlertSeverity
  atype : AlertType
  title : String
  recommendation : Option String := none
  acknowledged : Bool := false
  resolved : Bool := false
  priority_score : ℤ := 0
deriving DecidableEq, Repr

/-- An `Alert(...)` construction from the vitals ingestion path: every call
    site passes severity, type, title and recommendation, never
    `priority_score`. -/
def mkIngestAlert (pid : ℕ) (now : ℤ) (sev : AlertSeverity) (ty : AlertType)
    (title rec : String) : Alert :=
  { patient_id := pid, generated_at := now, severity := sev, atype := ty,
    title := title, recommendation := some rec }

/-- Blood-pressure threshold ladder of `create_vital` (`s >= 180 or d >= 120`
    critical, `elif s >= 160 or d >= 100` urgent, `elif s >= 140 or d >= 90`
    serious). -/
def bpThresholdAlerts (pid : ℕ) (now : ℤ) (s d : ℚ) : List Alert :=
  if s ≥ 180 ∨ d ≥ 120 then
    [mkIngestAlert pid now .CRITICAL .RISK_THRESHOLD "Hypertensive Crisis"
      "Seek immediate medical attention"]
  else if s ≥ 160 ∨ d ≥ 100 then
    [mkIngestAlert pid now .URGENT .RISK_THRESHOLD "Severely Elevated Blood Pressure"
      "Review antihypertensive therapy"]
  else if s ≥ 140 ∨ d ≥ 90 then
    [mkIngestAlert pid now .SERIOUS .RISK_THRESHOLD "Elevated Blood Pressure"
      "Monitor and consider medication adjustment"]
  else []

/-- Heart-rate threshold of `create_vital` (`hr >= 130`). -/
def hrThresholdAlerts (pid : ℕ) (now : ℤ) (hr : ℚ) : List Alert :=
  if hr ≥ 130 then
    [mkIngestAlert pid now .URGENT .ANOMALY "Tachycardia Detected"
      "Assess for arrhythmia or dehydration"]
  else []

/-- Blood-glucose thresholds of `create_vital` (`bg >= 250` urgent,
    `elif bg >= 180` serious). -/
def bgThresholdAlerts (pid : ℕ) (now : ℤ) (bg : ℚ) : List Alert :=
  if bg ≥ 250 then
    [mkIngestAlert pid now .URGENT .RISK_THRESHOLD "Severe Hyperglycemia"
      "Review insulin/medication; check for DKA symptoms"]
  else if bg ≥ 180 then
    [mkIngestAlert pid now .SERIOUS .RISK_THRESHOLD "Hyperglycemia"
      "Dietary review and medication adherence"]
  else []

/-- Oxygen-saturation threshold of `create_vital`
    (`if spo2 and spo2 <= 92`, urgent when `<= 88` else serious). -/
def spo2ThresholdAlerts (pid : ℕ) (now : ℤ) (spo2 : ℚ) : List Alert :=
  if spo2 ≠ 0 ∧ spo2 ≤ 92 then
    [mkIngestAlert pid now (if spo2 ≤ 88 then .URGENT else .SERIOUS) .ANOMALY
      "Low Oxygen Saturation" "Evaluate respiratory status"]
  else []

/-- Fever threshold of `create_vital` (`if t and t >= 38.0`, mild). -/
def tempThresholdAlerts (pid : ℕ) (now : ℤ) (t : ℚ) : List Alert :=
  if t ≠ 0 ∧ t ≥ 38 then
    [mkIngestAlert pid now .MILD .ANOMALY "Fever Detected"
      "Hydration and symptomatic care; monitor"]
  else []

/-- The alert generation of `create_vital`: missing fields coalesce to 0
    (`v.systolic or 0`, `float(...) if ... else 0.0`), then the five threshold
    blocks run in source order. -/
def thresholdAlerts (pid : ℕ) (now : ℤ) (v : Vitals) : List Alert :=
  bpThresholdAlerts pid now (v.systolic.getD 0) (v.diastolic.getD 0)
  ++ hrThresholdAlerts pid now (v.heart_rate.getD 0)
  ++ bgThresholdAlerts pid now (v.blood_glucose.getD 0)
  ++ spo2ThresholdAlerts pid now (v.oxygen_saturation.getD 0)
  ++ tempThresholdAlerts pid now (v.temperature.getD 0)

/-- Stable insertion step for `ORDER BY generated_at DESC`. -/
def insertByGeneratedAtDesc (a : Alert) : List Alert → List Alert
  | [] => [a]
  | b :: bs => if b.generated_at ≤ a.generated_at then a :: b :: bs
               else b :: insertByGeneratedAtDesc a bs

/-- The ordering applied by `list_alerts`:
    `select(Alert).order_by(desc(Alert.generated_at))` — most recent first,
    no severity or priority term. -/
def orderByGeneratedAtDesc (l : List Alert) : List Alert :=
  l.foldr insertByGeneratedAtDesc []

/-- Every alert created by the ingestion path keeps the column default
    `priority_score = 0`, whatever its severity. -/
lemma thresholdAlerts_priority {pid : ℕ} {now : ℤ} {v : Vitals} {al : Alert}
    (h : al ∈ thresholdAlerts pid now v) : al.priority_score = 0 := by
  unfold thresholdAlerts at h
  simp only [List.mem_append] at h
  rcases h with (((h | h) | h) | h) | h
  · unfold bpThresholdAlerts at h
    split at h <;> [skip; split at h] <;> [simp_all [mkIngestAlert]; skip; skip]
    · simp_all [mkIngestAlert]
    · split at h <;> simp_all [mkIngestAlert]
  · unfold hrThresholdAlerts at h
    split at h <;> simp_all [mkIngestAlert]
  · unfold bgThresholdAlerts at h
    split at h <;> [simp_all [mkIngestAlert]; skip]
    split at h <;> simp_all [mkIngestAlert]
  · unfold spo2ThresholdAlerts at h
    split at h <;> simp_all [mkIngestAlert]
  · unfold tempThresholdAlerts at h
    split at h <;> simp_all [mkIngestAlert]

lemma insertByGeneratedAtDesc_perm (a : Alert) (l : List Alert) :
    (insertByGeneratedAtDesc a l).Perm (a :: l) := by
  induction l with
  | nil => simp [insertByGeneratedAtDesc]
  | cons b bs ih =>
    unfold insertByGeneratedAtDesc
    split
    · exact List.Perm.refl _
    · exact (ih.cons b).trans (List.Perm.swap a b bs)

lemma insertByGeneratedAtDesc_pairwise (a : Alert) (l : List Alert)
    (h : l.Pairwise (fun x y : Alert => y.generated_at ≤ x.generated_at)) :
    (insertByGeneratedAtDesc a l).Pairwise
      (fun x y : Alert => y.generated_at ≤ x.generated_at) := by
  induction l with
  | nil => simp [insertByGeneratedAtDesc]
  | cons b bs ih =>
    rw [List.pairwise_cons] at h
    unfold insertByGeneratedAtDesc
    split
    · rename_i hba
      rw [List.pairwise_cons]
      refine ⟨?_, List.pairwise_cons.mpr h⟩
      intro y hy
      rcases List.mem_cons.mp hy with rfl | hy
      · exact hba
      · exact le_trans (h.1 y hy) hba
    · rename_i hba
      push_neg at hba
      rw [List.pairwise_cons]
      refine ⟨?_, ih h.2⟩
      intro y hy
      rcases List.mem_cons.mp ((insertByGeneratedAtDesc_perm a bs).mem_iff.mp hy)
        with rfl | hy
      · exact le_of_lt hba
      · exact h.1 y hy

lemma orderByGeneratedAtDesc_perm (l : List Alert) :
    (orderByGeneratedAtDesc l).Perm l := by
  induction l with
  | nil => exact List.Perm.refl _
  | cons a as ih =>
    exact (insertByGeneratedAtDesc_perm a (orderByGeneratedAtDesc as)).trans (ih.cons a)

lemma orderByGeneratedAtDesc_pairwise (l : List Alert) :
    (orderByGeneratedAtDesc l).Pairwise
      (fun x y : Alert => y.generated_at ≤ x.generated_at) := by
  induction l with
  | nil => exact List.Pairwise.nil
  | cons a as ih => exact insertByGeneratedAtDesc_pairwise a _ ih

/-- C2 counterexample: a critical alert created at time 1 and a mild alert
    created at time 2 get the same priority_score (the default 0), and the
    listing order puts the mild one first — severity does not order alerts. -/
theorem alert_priority_counterexample :
    ((thresholdAlerts 1 1 { systolic := some 185 }).map Alert.severity
        = [AlertSeverity.CRITICAL])
    ∧ ((thresholdAlerts 1 2 { temperature := some 39 }).map Alert.severity
        = [AlertSeverity.MILD])
    ∧ ((thresholdAlerts 1 1 { systolic := some 185 }
        ++ thresholdAlerts 1 2 { temperature := some 39 }).map Alert.priority_score
        = [0, 0])
    ∧ ((orderByGeneratedAtDesc (thresholdAlerts 1 1 { systolic := some 185 }
        ++ thresholdAlerts 1 2 { temperature := some 39 })).map Alert.severity
        = [AlertSeverity.MILD, AlertSeverity.CRITICAL]) := by decide

/-- C2 amended: `priority_score` is never derived from severity — every alert
    created by the ingestion path keeps the default 0 — and `list_alerts`
    orders purely by `generated_at` descending (most recent first). -/
theorem alert_priority_amended :
    (∀ (pid : ℕ) (now : ℤ) (v : Vitals) (al : Alert),
      al ∈ thresholdAlerts pid now v → al.priority_score = 0)
    ∧ ∀ (l : List Alert),
        (orderByGeneratedAtDesc l).Pairwise
          (fun x y : Alert => y.generated_at ≤ x.generated_at)
        ∧ (orderByGeneratedAtDesc l).Perm l :=
  ⟨fun _ _ _ _ h => thresholdAlerts_priority h,
   fun l => ⟨orderByGeneratedAtDesc_pairwise l, orderByGeneratedAtDesc_perm l⟩⟩

/-- Witness for C2's amended claim at the concrete critical/mild pair. -/
theorem alert_priority_amended_witness :
    (mkIngestAlert 1 1 .CRITICAL .RISK_THRESHOLD "Hypertensive Crisis"
        "Seek immediate medical attention" ∈ thresholdAlerts 1 1 { systolic := some 185 }
      ∧ (mkIngestAlert 1 1 .CRITICAL .RISK_THRESHOLD "Hypertensive Crisis"
        "Seek immediate medical attention").priority_score = 0)
    ∧ ((orderByGeneratedAtDesc (thresholdAlerts 1 1 { systolic := some 185 }
          ++ thresholdAlerts 1 2 { temperature := some 39 })).Pairwise
        (fun x y : Alert => y.generated_at ≤ x.generated_at)
      ∧ (orderByGeneratedAtDesc (thresholdAlerts 1 1 { systolic := some 185 }
          ++ thresholdAlerts 1 2 { temperature := some 39 })).Perm
        (thresholdAlerts 1 1 { systolic := some 185 }
          ++ thresholdAlerts 1 2 { temperature := some 39 })) :=
  ⟨⟨by decide,
    alert_priority_amended.1 1 1 { systolic := some 185 }
      (mkIngestAlert 1 1 .CRITICAL .RISK_THRESHOLD "Hypertensive Crisis"
        "Seek immediate medical attention") (by decide)⟩,
   alert_priority_amended.2 (thresholdAlerts 1 1 { systolic := some 185 }
      ++ thresholdAlerts 1 2 { temperature := some 39 })⟩

end HealthRevo
